import Mathlib

/-!
Shallow embedding of `src/web/ai_factory_view.py`: the resilient module
resolver `load_factory_tabs`, the fallback stubs, the fallback `N8NClient`,
the per-session dependency bootstrapping of `render_ai_factory_view`, the
dashboard success-percentage computation, and the create-code form handler.
The embedding is parametric in an `Env` record that supplies the outcomes of
the external operations the Python code performs (module imports, file
existence checks, direct file loading), so theorems quantify over every
behaviour of the environment.
-/

namespace AIFactoryView

/-- Python exceptions, distinguished as finely as the handlers in the source
distinguish them: `except ImportError` in the standard-import loop,
`except Exception` in the direct file-path strategy and in the form handler. -/
inductive PyError where
  | importError
  | attributeError
  | zeroDivisionError
  | otherError (msg : String)
deriving DecidableEq, Repr

/-- Observable shape of a candidate `ai_factory_tabs` module: its identity,
and which of the three expected capabilities it exports.  Reading a missing
attribute raises `AttributeError` in Python, modelled by `bindCaps`. -/
structure ModuleExports where
  modId : String
  hasRenderHub : Bool
  hasRenderSys : Bool
  hasAddToHub : Bool
deriving DecidableEq, Repr

/-- An implementation bound to one of the three process-wide capability
names: a fallback stub defined at module top level, or the attribute of a
loaded module (tagged with that module's identity and the attribute name). -/
inductive Fn where
  | stubHub
  | stubSys
  | stubAdd
  | modFn (modId : String) (attr : String)
deriving DecidableEq, Repr

/-- The three global binding targets of `load_factory_tabs`. -/
structure Globals where
  render_universal_data_hub_tab : Fn
  render_system_management_tab : Fn
  add_to_hub : Fn
deriving DecidableEq, Repr

/-- Globals as they stand when `load_factory_tabs` is called: the fallback
stubs defined at lines 37-42 of the source. -/
def initGlobals : Globals := ⟨Fn.stubHub, Fn.stubSys, Fn.stubAdd⟩

/-- Result of `setup_environment`: either the info dict (with keys
`this_file`, `this_dir`, `root_dir`, `sys_path`) or the error dict
(with only the key `error`). -/
inductive EnvInfo where
  | info (this_file this_dir root_dir : String) (sys_path : List String)
  | error (msg : String)
deriving DecidableEq, Repr

/-- The check `"this_dir" in ENV_INFO` / the lookup `ENV_INFO["this_dir"]`. -/
def EnvInfo.thisDir : EnvInfo → Option String
  | .info _ d _ _ => some d
  | .error _ => none

/-- Environment of `load_factory_tabs`: outcome of `importlib.import_module`
for each logical name, the `ENV_INFO` dict, `os.path.exists`, and the
combined outcome of `spec_from_file_location`, `module_from_spec` and
`exec_module` on a file path. -/
structure Env where
  importModule : String → Except PyError ModuleExports
  envInfo : EnvInfo
  fileExists : String → Bool
  loadFile : String → Except PyError ModuleExports

/-- One load attempt, for the attempt trace: a standard import of a logical
name, or the direct file-path load of a path. -/
inductive Attempt where
  | std (target : String)
  | direct (path : String)
deriving DecidableEq, Repr

/-- The list of import patterns to try, in declared priority order
(source lines 49-52). -/
def targets : List String := ["web.ai_factory_tabs", "ai_factory_tabs"]

/-- The three sequential attribute reads and global assignments performed on
a loaded module (source lines 58-60 and 73-75).  Assignments are sequential:
if an attribute is missing, the earlier assignments have already happened
and an `AttributeError` is raised, leaving the globals partially rebound. -/
def bindCaps (g : Globals) (m : ModuleExports) : Globals × Option PyError :=
  if m.hasRenderHub then
    let g1 := { g with render_universal_data_hub_tab := Fn.modFn m.modId "render_universal_data_hub_tab" }
    if m.hasRenderSys then
      let g2 := { g1 with render_system_management_tab := Fn.modFn m.modId "render_system_management_tab" }
      if m.hasAddToHub then
        ({ g2 with add_to_hub := Fn.modFn m.modId "add_to_hub" }, none)
      else (g2, some PyError.attributeError)
    else (g1, some PyError.attributeError)
  else (g, some PyError.attributeError)

/-- The standard-import loop (source lines 55-63).  Only `ImportError` is
caught and makes the loop continue; any other exception (such as the
`AttributeError` of a partial module) aborts the loop and propagates.
Returns the attempts made, the globals, and `some r` when the loop
returned/raised with `r`, or `none` when it fell through to Pattern C. -/
def tryStandardImports (env : Env) (g : Globals) :
    List String → List Attempt × Globals × Option (Except PyError Bool)
  | [] => ([], g, none)
  | t :: ts =>
    match env.importModule t with
    | .error .importError =>
      let r := tryStandardImports env g ts
      (Attempt.std t :: r.1, r.2)
    | .error e => ([Attempt.std t], g, some (Except.error e))
    | .ok m =>
      match bindCaps g m with
      | (g1, none) => ([Attempt.std t], g1, some (Except.ok true))
      | (g1, some e) => ([Attempt.std t], g1, some (Except.error e))

/-- Pattern C, the direct file-path strategy (source lines 66-78): guarded by
`"this_dir" in ENV_INFO` and `os.path.exists`; the whole block sits inside
`try ... except Exception`, which converts any exception into a warning.
Returns (attempts, globals, returned-success, warning-emitted). -/
def directFileLoad (env : Env) (g : Globals) : List Attempt × Globals × Bool × Bool :=
  match env.envInfo.thisDir with
  | none => ([], g, false, false)
  | some d =>
    let target_path := d ++ "/ai_factory_tabs.py"
    if env.fileExists target_path then
      match env.loadFile target_path with
      | .error _ => ([Attempt.direct target_path], g, false, true)
      | .ok m =>
        match bindCaps g m with
        | (g1, none) => ([Attempt.direct target_path], g1, true, false)
        | (g1, some _) => ([Attempt.direct target_path], g1, false, true)
    else ([], g, false, false)

deriving instance DecidableEq for Except

/-- Outcome of one call to `load_factory_tabs`: the returned value (or the
uncaught exception), the final globals, the ordered trace of load attempts,
and whether `st.warning` was emitted. -/
structure LoadResult where
  ret : Except PyError Bool
  globals : Globals
  trace : List Attempt
  warned : Bool
deriving DecidableEq, Repr

/-- `load_factory_tabs` (source lines 45-80). -/
def load_factory_tabs (env : Env) : LoadResult :=
  match tryStandardImports env initGlobals targets with
  | (tr, g, some r) => ⟨r, g, tr, false⟩
  | (tr, g, none) =>
    match directFileLoad env g with
    | (tr2, g2, ok, warned) => ⟨Except.ok ok, g2, tr ++ tr2, warned⟩

/-- The fallback registration stub `def add_to_hub(*args, **kwargs): return False`
(source line 42), modelled with an explicit state parameter to make the frame
condition (no mutation of any state) expressible. -/
def add_to_hub {σ α β : Type} (state : σ) (args : List α) (kwargs : List (String × β)) : σ × Bool :=
  (state, false)

/-- Return value of the fallback `get_workflow_statistics` (source line 102). -/
structure WorkflowStats where
  total_workflows : Nat
  active_workflows : Nat
deriving DecidableEq, Repr

/-- Return value of the fallback `get_execution_statistics` (source line 103). -/
structure ExecStats where
  total_executions : Nat
  successful : Nat
  executions : List String
deriving DecidableEq, Repr

/-- The fallback `N8NClient` defined when `n8n_integration` cannot be imported
(source lines 97-104). -/
structure N8NClient where
  base_url : String
  api_key : Option String
deriving DecidableEq, Repr

def N8NClient.test_connection (_ : N8NClient) : Bool := false

def N8NClient.get_workflow_statistics (_ : N8NClient) : WorkflowStats := ⟨0, 0⟩

def N8NClient.get_execution_statistics (_ : N8NClient) : ExecStats := ⟨0, 0, []⟩

def N8NClient.get_workflows (_ : N8NClient) : List String := []

/-- The slice of `st.session_state` touched by `render_ai_factory_view`
(source lines 111-123).  An outer `none` means the key is absent from the
session dict; for `orchestrator` the inner value is `none` when Python
stored `None` (no Gemini key) and `some k` for `AIOrchestrator(k)`. -/
structure SessionState where
  orchestrator : Option (Option String)
  memory : Option Unit
  n8n_client : Option (String × Option String)
  gemini_key : Option String
deriving DecidableEq, Repr

/-- The `st.secrets` lookups of source lines 121-122. -/
structure Secrets where
  n8n_base_url : Option String
  n8n_api_key : Option String
deriving DecidableEq, Repr

/-- Result of the session-bootstrap prefix of `render_ai_factory_view`: the
updated session state, and for each dependency whether its constructor ran
during this invocation. -/
structure ViewInitResult where
  state : SessionState
  orchestratorConstructed : Bool
  memoryConstructed : Bool
  clientConstructed : Bool
deriving DecidableEq, Repr

/-- The session-bootstrap prefix of `render_ai_factory_view` (source lines
111-123): each dependency is constructed only when its key is absent from
`st.session_state`, then cached there. -/
def render_ai_factory_view_init (secrets : Secrets) (s : SessionState) : ViewInitResult :=
  let p1 : SessionState × Bool :=
    match s.orchestrator with
    | some _ => (s, false)
    | none =>
      match s.gemini_key with
      | some k =>
        if k ≠ "" then ({ s with orchestrator := some (some k) }, true)
        else ({ s with orchestrator := some none }, false)
      | none => ({ s with orchestrator := some none }, false)
  let p2 : SessionState × Bool :=
    match p1.1.memory with
    | some _ => (p1.1, false)
    | none => ({ p1.1 with memory := some () }, true)
  let p3 : SessionState × Bool :=
    match p2.1.n8n_client with
    | some _ => (p2.1, false)
    | none =>
      let n8n_url := secrets.n8n_base_url.getD "http://localhost:5678"
      let n8n_key := secrets.n8n_api_key
      ({ p2.1 with n8n_client := some (n8n_url, n8n_key) }, true)
  ⟨p3.1, p1.2, p2.2, p3.2⟩

/-- The statistics dict returned by `st.session_state.memory.get_statistics()`
as `render_dashboard_tab` reads it (source lines 139-146): every key may be
absent, in which case `dict.get` supplies the written default. -/
structure MemStats where
  total_code_files : Option Nat
  total_knowledge : Option Nat
  total_executions : Option Nat
  executions_by_status : Option (List (String × Nat))
deriving DecidableEq, Repr

/-- Python `/` on numbers: raises `ZeroDivisionError` on a zero divisor,
otherwise exact (rational) division. -/
def pydiv (a b : ℚ) : Except PyError ℚ :=
  if b = 0 then Except.error PyError.zeroDivisionError else Except.ok (a / b)

/-- The success percentage displayed by `render_dashboard_tab` (source lines
145-147): `int(success / max(1, total) * 100)` with
`success = stats.get("executions_by_status", {}).get("success", 0)` and
`total = stats.get("total_executions", 1)`. -/
def success_percent (stats : MemStats) : Except PyError ℤ :=
  let success : Nat := ((stats.executions_by_status.getD []).lookup "success").getD 0
  let total : Nat := stats.total_executions.getD 1
  match pydiv (success : ℚ) (max 1 (total : ℚ)) with
  | Except.error e => Except.error e
  | Except.ok q => Except.ok ⌊q * 100⌋

/-- The `plan` sub-dict of an orchestrator result, as read by
`render_create_code_tab` (source line 161). -/
structure Plan where
  project_name : Option String
deriving DecidableEq, Repr

/-- The `execution` sub-dict of an orchestrator result (source line 163). -/
structure Execution where
  created_files : List String
deriving DecidableEq, Repr

/-- An orchestrator result dict, as read by `render_create_code_tab`. -/
structure GenResult where
  plan : Option Plan
  execution : Option Execution
  package : Option String
deriving DecidableEq, Repr

/-- Environment of the create-code form handler: the orchestrator call, the
filesystem reads, and whatever implementation is currently bound to
`add_to_hub` — each may raise. -/
structure CreateEnv where
  process_request : String → Except PyError GenResult
  fileExists : String → Bool
  readFile : String → Except PyError String
  add_to_hub : String → String → String → Except PyError Bool

/-- `os.path.basename`. -/
def basename (p : String) : String := ((p.splitOn "/").getLast?).getD p

/-- The per-file loop of the form handler (source lines 163-165). -/
def hub_files (env : CreateEnv) : List String → Except PyError Unit
  | [] => Except.ok ()
  | f :: fs =>
    if env.fileExists f then
      match env.readFile f with
      | Except.error e => Except.error e
      | Except.ok content =>
        match env.add_to_hub ("File: " ++ basename f) ("```python\n" ++ content ++ "\n```") "Mã Nguồn" with
        | Except.error e => Except.error e
        | Except.ok _ => hub_files env fs
    else hub_files env fs

/-- Observable outcome of one submitted create-code request: the value of
`st.session_state.last_res` afterwards, whether an inline `st.error` was
shown, and whether the success path (ending in `st.rerun`) completed. -/
structure SubmitResult where
  last_res : Option GenResult
  errorShown : Bool
  reran : Bool
deriving DecidableEq, Repr

/-- The `try`/`except` body run when the create-code form is submitted
(source lines 158-168): everything up to and including `st.rerun()` sits in
one `try` whose `except Exception` shows an inline error.  The assignment to
`st.session_state.last_res` happens only after the orchestrator call and the
hub loop have succeeded, so on any exception the previous value is kept. -/
def create_code_submit (env : CreateEnv) (req : String) (last_res0 : Option GenResult) :
    SubmitResult :=
  match env.process_request req with
  | Except.error _ => ⟨last_res0, true, false⟩
  | Except.ok res =>
    let nm := (res.plan.getD ⟨none⟩).project_name.getD "Project"
    match env.add_to_hub ("Kế hoạch: " ++ nm) ("Yêu cầu từ người dùng: " ++ req) "Nghiên Cứu" with
    | Except.error _ => ⟨last_res0, true, false⟩
    | Except.ok _ =>
      match hub_files env ((res.execution.getD ⟨[]⟩).created_files) with
      | Except.error _ => ⟨last_res0, true, false⟩
      | Except.ok _ => ⟨some res, false, true⟩

/-! Concrete environments used to evaluate the theorems on explicit inputs. -/

/-- A module exporting all three expected capabilities. -/
def modFull (id : String) : ModuleExports := ⟨id, true, true, true⟩

/-- A module that imports fine but does not export `add_to_hub`. -/
def modMissingAdd : ModuleExports := ⟨"web.ai_factory_tabs", true, true, false⟩

/-- A module that imports fine but does not export `render_system_management_tab`. -/
def modMissingSys : ModuleExports := ⟨"ai_factory_tabs", true, false, true⟩

/-- A successful `setup_environment` outcome. -/
def envInfoOk : EnvInfo :=
  EnvInfo.info "/app/web/ai_factory_view.py" "/app/web" "/app" ["/app/web", "/app"]

/-- Every import raises `ImportError`, `setup_environment` failed. -/
def envAllFailNoDir : Env :=
  ⟨fun _ => Except.error PyError.importError, EnvInfo.error "no file", fun _ => false,
   fun _ => Except.error PyError.importError⟩

/-- Every import raises `ImportError`, `this_dir` known, but the file is absent. -/
def envAllFailNoFile : Env :=
  ⟨fun _ => Except.error PyError.importError, envInfoOk, fun _ => false,
   fun _ => Except.error PyError.importError⟩

/-- Both standard imports raise `ImportError`; the direct file-path load succeeds. -/
def envDirectOk : Env :=
  ⟨fun _ => Except.error PyError.importError, envInfoOk, fun _ => true,
   fun _ => Except.ok (modFull "ai_factory_tabs_fixed")⟩

/-- Both standard imports raise `ImportError`; the direct file-path load raises. -/
def envDirectRaises : Env :=
  ⟨fun _ => Except.error PyError.importError, envInfoOk, fun _ => true,
   fun _ => Except.error (PyError.otherError "exec_module failed")⟩

/-- The first standard import succeeds with a complete module. -/
def envFirstOk : Env :=
  ⟨fun t => if t = "web.ai_factory_tabs" then Except.ok (modFull "web.ai_factory_tabs")
            else Except.error PyError.importError,
   envInfoOk, fun _ => false, fun _ => Except.error PyError.importError⟩

/-- The first standard import yields a module lacking `add_to_hub`. -/
def envMissingAddFirst : Env :=
  ⟨fun t => if t = "web.ai_factory_tabs" then Except.ok modMissingAdd
            else Except.error PyError.importError,
   envInfoOk, fun _ => false, fun _ => Except.error PyError.importError⟩

/-- The first import raises `ImportError`; the second yields a module lacking
`render_system_management_tab`. -/
def envMissingSysSecond : Env :=
  ⟨fun t => if t = "ai_factory_tabs" then Except.ok modMissingSys
            else Except.error PyError.importError,
   envInfoOk, fun _ => false, fun _ => Except.error PyError.importError⟩

/-- A create-code environment whose orchestrator call raises. -/
def createEnvFailing : CreateEnv :=
  ⟨fun _ => Except.error (PyError.otherError "gemini down"), fun _ => false,
   fun _ => Except.error (PyError.otherError "io"), fun _ _ _ => Except.ok true⟩

/-- A cached orchestrator result used as prior session state in witnesses. -/
def sampleRes : GenResult := ⟨some ⟨some "Proj"⟩, some ⟨["a.py"]⟩, none⟩

/-- Sample memory statistics with `total_executions = 0`. -/
def sampleStatsZero : MemStats := ⟨some 1, some 2, some 0, some [("success", 0)]⟩

/-- Claim C5: for every `(base_url, api_key)` pair, the fallback `N8NClient`
has `test_connection` return `false`, `get_workflow_statistics` return zero
counts, `get_execution_statistics` return zero counts with an empty
executions sequence, and `get_workflows` return an empty sequence; every
query method is total (never raises). -/
theorem n8n_fallback_client_empty_results (base_url : String) (api_key : Option String) :
    (N8NClient.mk base_url api_key).test_connection = false ∧
    (N8NClient.mk base_url api_key).get_workflow_statistics = ⟨0, 0⟩ ∧
    (N8NClient.mk base_url api_key).get_execution_statistics = ⟨0, 0, []⟩ ∧
    (N8NClient.mk base_url api_key).get_workflows = [] :=
  ⟨rfl, rfl, rfl, rfl⟩

/-- Evaluation of `n8n_fallback_client_empty_results` at a concrete pair. -/
theorem n8n_fallback_client_empty_results_witness :
    (N8NClient.mk "http://example.org:5678" (some "key")).test_connection = false :=
  (n8n_fallback_client_empty_results "http://example.org:5678" (some "key")).1

/-- Claim C6: the fallback `add_to_hub`, called with arbitrary positional and
keyword arguments, always returns `False`, never raises, and mutates no
state: the state component is returned unchanged. -/
theorem add_to_hub_fallback_noop (σ α β : Type) (s : σ) (args : List α)
    (kwargs : List (String × β)) :
    add_to_hub s args kwargs = (s, false) :=
  rfl

/-- Evaluation of `add_to_hub_fallback_noop` at concrete arguments. -/
theorem add_to_hub_fallback_noop_witness :
    add_to_hub (37 : Nat) ["item"] [("category", true)] = (37, false) :=
  add_to_hub_fallback_noop Nat String Bool 37 ["item"] [("category", true)]

/-- Claim C9: `render_dashboard_tab` never divides by zero: for every
statistics dict the displayed percentage `int(success / max(1, total) * 100)`
is a well-defined integer, both when `total_executions` is absent (the
`dict.get` default 1 applies) and when it is 0 (`max(1, 0) = 1`). -/
theorem success_percent_never_divides_by_zero (stats : MemStats) :
    ∃ z : ℤ, success_percent stats = Except.ok z := by
  have h : (max 1 ((stats.total_executions.getD 1 : Nat) : ℚ)) ≠ 0 := by
    have h1 : (1 : ℚ) ≤ max 1 ((stats.total_executions.getD 1 : Nat) : ℚ) := le_max_left _ _
    intro h0
    rw [h0] at h1
    norm_num at h1
  simp only [success_percent, pydiv, if_neg h]
  exact ⟨_, rfl⟩

/-- Evaluation of `success_percent_never_divides_by_zero` at statistics with
`total_executions = 0`. -/
theorem success_percent_never_divides_by_zero_witness :
    ∃ z : ℤ, success_percent sampleStatsZero = Except.ok z :=
  success_percent_never_divides_by_zero sampleStatsZero

/-- Claim C7: if the orchestrator call `process_request` raises inside the
create-code form handler, the exception is caught there, an inline error is
shown, the handler returns normally (the session does not crash), and
`st.session_state.last_res` keeps the value it had before the request. -/
theorem create_code_submit_error_contained (env : CreateEnv) (req : String)
    (last_res0 : Option GenResult) (e : PyError)
    (h : env.process_request req = Except.error e) :
    create_code_submit env req last_res0 = ⟨last_res0, true, false⟩ := by
  unfold create_code_submit
  rw [h]

/-- Evaluation of `create_code_submit_error_contained` on a failing
orchestrator with a cached previous result. -/
theorem create_code_submit_error_contained_witness :
    create_code_submit createEnvFailing "make app" (some sampleRes) =
      ⟨some sampleRes, true, false⟩ :=
  create_code_submit_error_contained createEnvFailing "make app" (some sampleRes)
    (PyError.otherError "gemini down") rfl

/-- Claim C8: across repeated invocations of `render_ai_factory_view` in one
session, each per-dependency object (orchestrator, memory store, n8n client)
is constructed at most once and cached in session state: after one
invocation every key is present; a second invocation constructs nothing and
leaves the state unchanged; and a dependency already cached in the incoming
state is never reconstructed or replaced. -/
theorem session_deps_constructed_once (secrets : Secrets) (s : SessionState) :
    (render_ai_factory_view_init secrets s).state.orchestrator.isSome = true ∧
    (render_ai_factory_view_init secrets s).state.memory.isSome = true ∧
    (render_ai_factory_view_init secrets s).state.n8n_client.isSome = true ∧
    render_ai_factory_view_init secrets (render_ai_factory_view_init secrets s).state =
      ⟨(render_ai_factory_view_init secrets s).state, false, false, false⟩ ∧
    (s.orchestrator.isSome = true →
      (render_ai_factory_view_init secrets s).orchestratorConstructed = false ∧
      (render_ai_factory_view_init secrets s).state.orchestrator = s.orchestrator) ∧
    (s.memory.isSome = true →
      (render_ai_factory_view_init secrets s).memoryConstructed = false ∧
      (render_ai_factory_view_init secrets s).state.memory = s.memory) ∧
    (s.n8n_client.isSome = true →
      (render_ai_factory_view_init secrets s).clientConstructed = false ∧
      (render_ai_factory_view_init secrets s).state.n8n_client = s.n8n_client) := by
  rcases s with ⟨o, m, c, k⟩
  cases o <;> cases m <;> cases c <;> cases k
  all_goals try (simp [render_ai_factory_view_init]; done)
  all_goals
    rename_i k
    by_cases hk : k = "" <;> simp [render_ai_factory_view_init, hk]

/-- Evaluation of `session_deps_constructed_once`: a session that already
holds a cached (`None`-valued) orchestrator does not reconstruct it. -/
theorem session_deps_constructed_once_witness :
    (render_ai_factory_view_init ⟨none, none⟩
      ⟨some none, some (), some ("http://localhost:5678", none), none⟩).orchestratorConstructed
      = false :=
  ((session_deps_constructed_once ⟨none, none⟩
      ⟨some none, some (), some ("http://localhost:5678", none), none⟩).2.2.2.2.1 rfl).1

/-- Claim C4: if both standard imports raise `ImportError` and the direct
file-path target `ai_factory_tabs.py` in the caller's directory does not
exist on disk, `load_factory_tabs` returns `False` and all three
capabilities remain bound to their fallback stubs — none is left unset or
partially rebound. -/
theorem load_exhaustion_keeps_stubs (env : Env)
    (hA : env.importModule "web.ai_factory_tabs" = Except.error PyError.importError)
    (hB : env.importModule "ai_factory_tabs" = Except.error PyError.importError)
    (hfile : ∀ d, env.envInfo.thisDir = some d →
      env.fileExists (d ++ "/ai_factory_tabs.py") = false) :
    (load_factory_tabs env).ret = Except.ok false ∧
    (load_factory_tabs env).globals = ⟨Fn.stubHub, Fn.stubSys, Fn.stubAdd⟩ := by
  cases hE : env.envInfo with
  | info f d r sp =>
    have hf := hfile d (by rw [hE]; rfl)
    simp [load_factory_tabs, targets, tryStandardImports, directFileLoad, hA, hB, hE,
      EnvInfo.thisDir, hf, initGlobals]
  | error msg =>
    simp [load_factory_tabs, targets, tryStandardImports, directFileLoad, hA, hB, hE,
      EnvInfo.thisDir, initGlobals]

/-- Evaluation of `load_exhaustion_keeps_stubs` on the environment where
every import fails and the target file is absent. -/
theorem load_exhaustion_keeps_stubs_witness :
    (load_factory_tabs envAllFailNoFile).ret = Except.ok false ∧
    (load_factory_tabs envAllFailNoFile).globals = ⟨Fn.stubHub, Fn.stubSys, Fn.stubAdd⟩ :=
  load_exhaustion_keeps_stubs envAllFailNoFile rfl rfl (fun _ _ => rfl)

/-- Claim C10: if `setup_environment` failed (`ENV_INFO` holds an `error` key
and no `this_dir`) and both standard imports raise `ImportError`,
`load_factory_tabs` silently skips the direct file-path strategy — no direct
load attempt appears in the trace and no warning is emitted — and returns
`False`, leaving the fallback stubs bound. -/
theorem load_skips_direct_without_this_dir (env : Env) (msg : String)
    (hinfo : env.envInfo = EnvInfo.error msg)
    (hA : env.importModule "web.ai_factory_tabs" = Except.error PyError.importError)
    (hB : env.importModule "ai_factory_tabs" = Except.error PyError.importError) :
    (load_factory_tabs env).ret = Except.ok false ∧
    (load_factory_tabs env).warned = false ∧
    (∀ p, Attempt.direct p ∉ (load_factory_tabs env).trace) ∧
    (load_factory_tabs env).globals = ⟨Fn.stubHub, Fn.stubSys, Fn.stubAdd⟩ := by
  simp [load_factory_tabs, targets, tryStandardImports, directFileLoad, hA, hB, hinfo,
    EnvInfo.thisDir, initGlobals]

/-- Evaluation of `load_skips_direct_without_this_dir` on the environment
where `setup_environment` failed and every import fails. -/
theorem load_skips_direct_without_this_dir_witness :
    (load_factory_tabs envAllFailNoDir).ret = Except.ok false ∧
    (load_factory_tabs envAllFailNoDir).warned = false ∧
    Attempt.direct "/app/web/ai_factory_tabs.py" ∉ (load_factory_tabs envAllFailNoDir).trace := by
  have h := load_skips_direct_without_this_dir envAllFailNoDir "no file" rfl rfl rfl
  exact ⟨h.1, h.2.1, h.2.2.1 "/app/web/ai_factory_tabs.py"⟩

/-- Claim C3 counterexample: a module that imports fine under the second
logical name but is missing `render_system_management_tab` makes the bind at
line 59 raise `AttributeError`, which the `except ImportError` handler does
not catch, so the exception propagates past `load_factory_tabs`. -/
theorem load_attribute_error_escapes :
    envMissingSysSecond.importModule "web.ai_factory_tabs" = Except.error PyError.importError ∧
    envMissingSysSecond.importModule "ai_factory_tabs" = Except.ok modMissingSys ∧
    (load_factory_tabs envMissingSysSecond).ret = Except.error PyError.attributeError := by
  decide

/-- Claim C3 (amended): when every standard import fails with `ImportError`,
`load_factory_tabs` propagates no exception: it returns a boolean, and any
exception raised during the direct file-path strategy is caught, converted
into a non-fatal warning, and resolution reports failure by returning
`False`.  (A module that loads via a standard import but is missing an
expected capability instead raises `AttributeError` at bind time, which the
`except ImportError` handler does not contain.) -/
theorem load_direct_errors_contained (env : Env)
    (hA : env.importModule "web.ai_factory_tabs" = Except.error PyError.importError)
    (hB : env.importModule "ai_factory_tabs" = Except.error PyError.importError) :
    (∃ b, (load_factory_tabs env).ret = Except.ok b) ∧
    (∀ d e, env.envInfo.thisDir = some d →
      env.fileExists (d ++ "/ai_factory_tabs.py") = true →
      env.loadFile (d ++ "/ai_factory_tabs.py") = Except.error e →
      (load_factory_tabs env).ret = Except.ok false ∧
      (load_factory_tabs env).warned = true) := by
  cases hE : env.envInfo with
  | info f d r sp =>
    cases hF : env.fileExists (d ++ "/ai_factory_tabs.py") with
    | false =>
      constructor
      · exact ⟨false, by simp [load_factory_tabs, targets, tryStandardImports, directFileLoad,
          hA, hB, hE, EnvInfo.thisDir, hF]⟩
      · intro d' e hd' hf' _
        simp only [EnvInfo.thisDir, Option.some.injEq] at hd'
        rw [← hd'] at hf'
        rw [hF] at hf'
        exact absurd hf' (by simp)
    | true =>
      cases hL : env.loadFile (d ++ "/ai_factory_tabs.py") with
      | error e =>
        constructor
        · exact ⟨false, by simp [load_factory_tabs, targets, tryStandardImports, directFileLoad,
            hA, hB, hE, EnvInfo.thisDir, hF, hL]⟩
        · intro d' e' hd' _ _
          simp only [EnvInfo.thisDir, Option.some.injEq] at hd'
          subst hd'
          simp [load_factory_tabs, targets, tryStandardImports, directFileLoad,
            hA, hB, hE, EnvInfo.thisDir, hF, hL]
      | ok m =>
        constructor
        · rcases hbind : bindCaps initGlobals m with ⟨g1, err⟩
          cases err with
          | none => exact ⟨true, by simp [load_factory_tabs, targets, tryStandardImports,
              directFileLoad, hA, hB, hE, EnvInfo.thisDir, hF, hL, hbind]⟩
          | some e => exact ⟨false, by simp [load_factory_tabs, targets, tryStandardImports,
              directFileLoad, hA, hB, hE, EnvInfo.thisDir, hF, hL, hbind]⟩
        · intro d' e' hd' _ hl'
          simp only [EnvInfo.thisDir, Option.some.injEq] at hd'
          subst hd'
          rw [hL] at hl'
          exact absurd hl' (by simp)
  | error msg =>
    constructor
    · exact ⟨false, by simp [load_factory_tabs, targets, tryStandardImports, directFileLoad,
        hA, hB, hE, EnvInfo.thisDir]⟩
    · intro d' e' hd' _ _
      simp [EnvInfo.thisDir] at hd'

/-- Evaluation of `load_direct_errors_contained` on the environment where
both imports fail and `exec_module` raises: the exception is converted into
a warning and `False` is returned. -/
theorem load_direct_errors_contained_witness :
    (load_factory_tabs envDirectRaises).ret = Except.ok false ∧
    (load_factory_tabs envDirectRaises).warned = true :=
  (load_direct_errors_contained envDirectRaises rfl rfl).2 "/app/web"
    (PyError.otherError "exec_module failed") rfl rfl rfl

/-- Claim C2 counterexample: the first standard import succeeds with a
module missing `add_to_hub`; the sequential binds rebind exactly two of the
three capabilities (the hub and admin renderers) before raising, leaving
`add_to_hub` on its stub, and the resolver does not report success. -/
theorem load_partial_module_partial_rebind :
    envMissingAddFirst.importModule "web.ai_factory_tabs" = Except.ok modMissingAdd ∧
    (load_factory_tabs envMissingAddFirst).globals.render_universal_data_hub_tab =
      Fn.modFn "web.ai_factory_tabs" "render_universal_data_hub_tab" ∧
    (load_factory_tabs envMissingAddFirst).globals.render_system_management_tab =
      Fn.modFn "web.ai_factory_tabs" "render_system_management_tab" ∧
    (load_factory_tabs envMissingAddFirst).globals.add_to_hub = Fn.stubAdd ∧
    (load_factory_tabs envMissingAddFirst).ret ≠ Except.ok true := by
  decide

/-- Claim C2 (amended): whenever a strategy of `load_factory_tabs` loads a
module that exports all three expected capabilities, all three are rebound
as a set to that module's exports and the resolver reports success; and
whenever the resolver reports success, all three capabilities were rebound,
to the exports of one and the same loaded module.  (A loaded module missing
a capability instead leaves the bindings partially rebound and the resolver
does not report success.) -/
theorem load_success_rebinds_all_three (env : Env) :
    ((load_factory_tabs env).ret = Except.ok true →
      ∃ src, (load_factory_tabs env).globals =
        ⟨Fn.modFn src "render_universal_data_hub_tab",
         Fn.modFn src "render_system_management_tab",
         Fn.modFn src "add_to_hub"⟩) ∧
    (∀ m, env.importModule "web.ai_factory_tabs" = Except.ok m →
      m.hasRenderHub = true → m.hasRenderSys = true → m.hasAddToHub = true →
      (load_factory_tabs env).ret = Except.ok true) ∧
    (∀ m, env.importModule "web.ai_factory_tabs" = Except.error PyError.importError →
      env.importModule "ai_factory_tabs" = Except.ok m →
      m.hasRenderHub = true → m.hasRenderSys = true → m.hasAddToHub = true →
      (load_factory_tabs env).ret = Except.ok true) ∧
    (∀ m d, env.importModule "web.ai_factory_tabs" = Except.error PyError.importError →
      env.importModule "ai_factory_tabs" = Except.error PyError.importError →
      env.envInfo.thisDir = some d →
      env.fileExists (d ++ "/ai_factory_tabs.py") = true →
      env.loadFile (d ++ "/ai_factory_tabs.py") = Except.ok m →
      m.hasRenderHub = true → m.hasRenderSys = true → m.hasAddToHub = true →
      (load_factory_tabs env).ret = Except.ok true) := by
  cases hA : env.importModule "web.ai_factory_tabs" with
  | ok mA =>
    obtain ⟨idA, a1, a2, a3⟩ := mA
    cases a1 <;> cases a2 <;> cases a3 <;>
      simp_all [load_factory_tabs, targets, tryStandardImports, bindCaps, initGlobals]
  | error eA =>
    cases eA with
    | importError =>
      cases hB : env.importModule "ai_factory_tabs" with
      | ok mB =>
        obtain ⟨idB, b1, b2, b3⟩ := mB
        cases b1 <;> cases b2 <;> cases b3 <;>
          simp_all [load_factory_tabs, targets, tryStandardImports, bindCaps, initGlobals]
      | error eB =>
        cases eB with
        | importError =>
          cases hE : env.envInfo with
          | error msg =>
            simp_all [load_factory_tabs, targets, tryStandardImports, directFileLoad,
              EnvInfo.thisDir, bindCaps, initGlobals]
          | info f d r sp =>
            cases hF : env.fileExists (d ++ "/ai_factory_tabs.py") with
            | false =>
              simp_all [load_factory_tabs, targets, tryStandardImports, directFileLoad,
                EnvInfo.thisDir, bindCaps, initGlobals]
            | true =>
              cases hL : env.loadFile (d ++ "/ai_factory_tabs.py") with
              | error e =>
                simp_all [load_factory_tabs, targets, tryStandardImports, directFileLoad,
                  EnvInfo.thisDir, bindCaps, initGlobals]
              | ok mC =>
                obtain ⟨idC, c1, c2, c3⟩ := mC
                cases c1 <;> cases c2 <;> cases c3 <;>
                  simp_all [load_factory_tabs, targets, tryStandardImports, directFileLoad,
                    EnvInfo.thisDir, bindCaps, initGlobals]
        | attributeError =>
          simp_all [load_factory_tabs, targets, tryStandardImports, bindCaps, initGlobals]
        | zeroDivisionError =>
          simp_all [load_factory_tabs, targets, tryStandardImports, bindCaps, initGlobals]
        | otherError msg =>
          simp_all [load_factory_tabs, targets, tryStandardImports, bindCaps, initGlobals]
    | attributeError =>
      simp_all [load_factory_tabs, targets, tryStandardImports, bindCaps, initGlobals]
    | zeroDivisionError =>
      simp_all [load_factory_tabs, targets, tryStandardImports, bindCaps, initGlobals]
    | otherError msg =>
      simp_all [load_factory_tabs, targets, tryStandardImports, bindCaps, initGlobals]

/-- Evaluation of `load_success_rebinds_all_three` on the environment whose
first standard import yields a complete module. -/
theorem load_success_rebinds_all_three_witness :
    (load_factory_tabs envFirstOk).ret = Except.ok true :=
  (load_success_rebinds_all_three envFirstOk).2.1 (modFull "web.ai_factory_tabs")
    rfl rfl rfl rfl

/-- Claim C1: `load_factory_tabs` tries the candidate logical names in the
declared priority order — `"web.ai_factory_tabs"` first, then
`"ai_factory_tabs"` — continuing to the next candidate exactly when a load
fails with `ImportError`, and stopping at the first successful strategy
without attempting any further one; the direct file-path load is attempted
only after both standard loads have failed, at most once, and last. -/
theorem load_factory_tabs_priority_order (env : Env) :
    (load_factory_tabs env).trace.head? = some (Attempt.std "web.ai_factory_tabs") ∧
    (env.importModule "web.ai_factory_tabs" = Except.error PyError.importError ↔
      Attempt.std "ai_factory_tabs" ∈ (load_factory_tabs env).trace) ∧
    (∀ m, env.importModule "web.ai_factory_tabs" = Except.ok m →
      m.hasRenderHub = true → m.hasRenderSys = true → m.hasAddToHub = true →
      (load_factory_tabs env).trace = [Attempt.std "web.ai_factory_tabs"] ∧
      (load_factory_tabs env).ret = Except.ok true) ∧
    (∀ m, env.importModule "web.ai_factory_tabs" = Except.error PyError.importError →
      env.importModule "ai_factory_tabs" = Except.ok m →
      m.hasRenderHub = true → m.hasRenderSys = true → m.hasAddToHub = true →
      (load_factory_tabs env).trace =
        [Attempt.std "web.ai_factory_tabs", Attempt.std "ai_factory_tabs"] ∧
      (load_factory_tabs env).ret = Except.ok true) ∧
    (∀ p, Attempt.direct p ∈ (load_factory_tabs env).trace →
      env.importModule "web.ai_factory_tabs" = Except.error PyError.importError ∧
      env.importModule "ai_factory_tabs" = Except.error PyError.importError ∧
      (load_factory_tabs env).trace =
        [Attempt.std "web.ai_factory_tabs", Attempt.std "ai_factory_tabs",
         Attempt.direct p]) ∧
    ((load_factory_tabs env).trace = [Attempt.std "web.ai_factory_tabs"] ∨
      (load_factory_tabs env).trace =
        [Attempt.std "web.ai_factory_tabs", Attempt.std "ai_factory_tabs"] ∨
      ∃ p, (load_factory_tabs env).trace =
        [Attempt.std "web.ai_factory_tabs", Attempt.std "ai_factory_tabs",
         Attempt.direct p]) := by
  cases hA : env.importModule "web.ai_factory_tabs" with
  | ok mA =>
    obtain ⟨idA, a1, a2, a3⟩ := mA
    cases a1 <;> cases a2 <;> cases a3 <;>
      simp_all [load_factory_tabs, targets, tryStandardImports, bindCaps, initGlobals]
  | error eA =>
    cases eA with
    | importError =>
      cases hB : env.importModule "ai_factory_tabs" with
      | ok mB =>
        obtain ⟨idB, b1, b2, b3⟩ := mB
        cases b1 <;> cases b2 <;> cases b3 <;>
          simp_all [load_factory_tabs, targets, tryStandardImports, bindCaps, initGlobals]
      | error eB =>
        cases eB with
        | importError =>
          cases hE : env.envInfo with
          | error msg =>
            simp_all [load_factory_tabs, targets, tryStandardImports, directFileLoad,
              EnvInfo.thisDir, bindCaps, initGlobals]
          | info f d r sp =>
            cases hF : env.fileExists (d ++ "/ai_factory_tabs.py") with
            | false =>
              simp_all [load_factory_tabs, targets, tryStandardImports, directFileLoad,
                EnvInfo.thisDir, bindCaps, initGlobals]
            | true =>
              cases hL : env.loadFile (d ++ "/ai_factory_tabs.py") with
              | error e =>
                simp_all [load_factory_tabs, targets, tryStandardImports, directFileLoad,
                  EnvInfo.thisDir, bindCaps, initGlobals]
              | ok mC =>
                obtain ⟨idC, c1, c2, c3⟩ := mC
                cases c1 <;> cases c2 <;> cases c3 <;>
                  simp_all [load_factory_tabs, targets, tryStandardImports, directFileLoad,
                    EnvInfo.thisDir, bindCaps, initGlobals]
        | attributeError =>
          simp_all [load_factory_tabs, targets, tryStandardImports, bindCaps, initGlobals]
        | zeroDivisionError =>
          simp_all [load_factory_tabs, targets, tryStandardImports, bindCaps, initGlobals]
        | otherError msg =>
          simp_all [load_factory_tabs, targets, tryStandardImports, bindCaps, initGlobals]
    | attributeError =>
      simp_all [load_factory_tabs, targets, tryStandardImports, bindCaps, initGlobals]
    | zeroDivisionError =>
      simp_all [load_factory_tabs, targets, tryStandardImports, bindCaps, initGlobals]
    | otherError msg =>
      simp_all [load_factory_tabs, targets, tryStandardImports, bindCaps, initGlobals]

/-- Evaluation of `load_factory_tabs_priority_order` on the environment
where both standard imports fail and the direct load succeeds: the trace is
both standard attempts in priority order followed by the single direct
attempt. -/
theorem load_factory_tabs_priority_order_witness :
    (load_factory_tabs envDirectOk).trace =
      [Attempt.std "web.ai_factory_tabs", Attempt.std "ai_factory_tabs",
       Attempt.direct "/app/web/ai_factory_tabs.py"] :=
  ((load_factory_tabs_priority_order envDirectOk).2.2.2.2.1
    "/app/web/ai_factory_tabs.py" (by decide)).2.2

end AIFactoryView

